import Mathlib

/-!
Shallow embedding of the hardware-abstraction layer of the Baxter
pick-and-place core (`src/hardware/baxter.py`, class `Baxter`), with
theorems settling the frozen claims about it.

Python floats are modelled by exact rationals (`ℚ`); decimal literals in
the source are exact decimal fractions, so this is faithful for every
comparison the embedded code performs.  Stateful methods are modelled by
explicit state passing; methods that talk to external collaborators
(IK service, limb pose source, camera back-projection, analog sensor)
take the collaborator's behaviour as an explicit argument, mirroring the
call contract the source uses.
-/

namespace Baxter

/-- The two Baxter arms, `self._arms = ['left', 'right']` in
`Baxter.__init__`.  Every per-arm resource is keyed by this value. -/
inductive Arm where
  | left
  | right
deriving DecidableEq, Repr

/-- `Baxter._gripper_ranges_meters` (baxter.py lines 375-387): the static
grasp-range table for the narrow and wide finger slots, keyed by
`(label, slot)`.  Values are exact decimal meters. -/
def gripper_ranges_meters : List ((String × Nat) × (ℚ × ℚ)) :=
  [ (("narrow", 1), ((0 : ℚ), (0.018 : ℚ))),
    (("narrow", 2), ((0.014 : ℚ), (0.037 : ℚ))),
    (("narrow", 3), ((0.033 : ℚ), (0.056 : ℚ))),
    (("narrow", 4), ((0.052 : ℚ), (0.075 : ℚ))),
    (("wide", 1), ((0.071 : ℚ), (0.094 : ℚ))),
    (("wide", 2), ((0.090 : ℚ), (0.113 : ℚ))),
    (("wide", 3), ((0.109 : ℚ), (0.132 : ℚ))),
    (("wide", 4), ((0.128 : ℚ), (0.151 : ℚ))) ]

/-- Look up a `(label, slot)` key in the grasp-range table, as
`self._gripper_ranges_meters()[settings.gripper_settings[a]]` does. -/
def gripper_range_for (key : String × Nat) : Option (ℚ × ℚ) :=
  (gripper_ranges_meters.find? (fun e => e.1 = key)).map (fun e => e.2)

/-- The diagnostic payload of the `ValueError` raised by
`select_gripper_for_object` when no gripper fits: the message carries the
requested size and both installed ranges (baxter.py lines 422-434). -/
structure NoSuitableGripperErr where
  size : ℚ
  left_range : ℚ × ℚ
  right_range : ℚ × ℚ
deriving DecidableEq, Repr

/-- The loop state of `select_gripper_for_object` (baxter.py lines
397-399): `dist = 0.0`, `min_width = 0.0`, `arm = None`. -/
structure SelState where
  dist : ℚ
  min_width : ℚ
  arm : Option Arm
deriving DecidableEq, Repr

/-- One iteration of the `for a in self._arms` loop of
`select_gripper_for_object` (baxter.py lines 402-421), for arm `a` with
installed range `gr`:
if `gr[0] <= size < gr[1]`, compute `min_dist = min(|gr[0]-size|,
|gr[1]-size|)`; if `min_dist > 0.0`, either take over the selection when
`min_dist > dist` (updating `min_width` only when `gr[0] > min_width`),
or on a distance tie prefer the arm with `gr[0] > min_width`. -/
def select_step (size : ℚ) (st : SelState) (entry : Arm × (ℚ × ℚ)) : SelState :=
  let gr := entry.2
  if gr.1 ≤ size ∧ size < gr.2 then
    let min_dist := min |gr.1 - size| |gr.2 - size|
    if 0 < min_dist then
      if st.dist < min_dist then
        { dist := min_dist,
          min_width := if st.min_width < gr.1 then gr.1 else st.min_width,
          arm := some entry.1 }
      else if min_dist = st.dist then
        if st.min_width < gr.1 then
          { st with min_width := gr.1, arm := some entry.1 }
        else st
      else st
    else st
  else st

/-- `Baxter.select_gripper_for_object` (baxter.py lines 389-436),
parametrised by the object's grasp width `size`
(`settings.object_size_meters[object_id]`) and the two installed ranges
(`settings.gripper_settings` applied to the range table).  Runs the loop
over `['left', 'right']` and raises `NoSuitableGripperErr` when no arm
was selected. -/
def select_gripper_for_object (size : ℚ) (grL grR : ℚ × ℚ) :
    Except NoSuitableGripperErr Arm :=
  let st := [(Arm.left, grL), (Arm.right, grR)].foldl (select_step size)
    { dist := 0, min_width := 0, arm := none }
  match st.arm with
  | none => .error { size := size, left_range := grL, right_range := grR }
  | some a => .ok a

/-- The IEEE-754 double value of `np.pi` used by `sample_task_space_pose`
(baxter.py lines 224-226), as an exact rational:
3.141592653589793115997963468544185161590576171875. -/
def np_pi : ℚ := 884279719003555 / 281474976710656

/-- The task-space limits dictionary `settings.task_space_limits_m`:
twelve scalar entries `x_min .. yaw_max`.

Modelled from the spec: the `settings` module is not part of the provided
sources; the spec's TaskSpaceEnvelope is "six independent [min,max]
intervals (x,y,z,roll,pitch,yaw)", held in one shared, mutable
configuration record loaded once at construction. -/
structure TaskSpaceLimits where
  x_min : ℚ
  x_max : ℚ
  y_min : ℚ
  y_max : ℚ
  z_min : ℚ
  z_max : ℚ
  roll_min : ℚ
  roll_max : ℚ
  pitch_min : ℚ
  pitch_max : ℚ
  yaw_min : ℚ
  yaw_max : ℚ
deriving DecidableEq, Repr

/-- `Baxter.sample_pose` (baxter.py lines 201-210): draw each of the six
coordinates as `(max - min) * u + min` where `u` is a fresh draw of
`np.random.random_sample()`.  The six draws are passed in explicitly as
`u : Fin 6 → ℚ`, modelling the process-wide random source. -/
def sample_pose (lim : TaskSpaceLimits) (u : Fin 6 → ℚ) : List ℚ :=
  [ (lim.x_max - lim.x_min) * u 0 + lim.x_min,
    (lim.y_max - lim.y_min) * u 1 + lim.y_min,
    (lim.z_max - lim.z_min) * u 2 + lim.z_min,
    (lim.roll_max - lim.roll_min) * u 3 + lim.roll_min,
    (lim.pitch_max - lim.pitch_min) * u 4 + lim.pitch_min,
    (lim.yaw_max - lim.yaw_min) * u 5 + lim.yaw_min ]

/-- `Baxter.sample_task_space_pose` (baxter.py lines 212-227).  In the
source, `borders = settings.task_space_limits_m` binds the shared
settings dictionary itself (no copy), so every key assignment
(`borders['z_max'] = 0.0` under `clip_z`, and the unconditional pinning
of roll/pitch/yaw to `pi`/`0.0`/`pi`) writes through to the settings
object.  The model therefore returns the sampled pose together with the
settings record as it is left for subsequent calls. -/
def sample_task_space_pose (limits : TaskSpaceLimits) (clip_z : Bool)
    (u : Fin 6 → ℚ) : List ℚ × TaskSpaceLimits :=
  let b1 := if clip_z then { limits with z_max := 0 } else limits
  let b2 := { b1 with
    roll_max := np_pi, roll_min := np_pi,
    pitch_max := 0, pitch_min := 0,
    yaw_max := np_pi, yaw_min := np_pi }
  (sample_pose b2 u, b2)

/-- Errors `Baxter.ik` can raise (baxter.py lines 229-265): a malformed
pose list rejected by `list_to_pose_msg` inside `_stamp_pose`
(`ValueError`), an unreachable IK service (`rospy.ServiceException` /
`rospy.ROSException`, re-raised), a solver response with
`isValid[0] == False` (`ValueError` carrying the pose and arm), and the
aggregate failure of `ik_either_limb` (`ValueError` naming either arm). -/
inductive IKErr where
  | invalidPose (pose : List ℚ)
  | solverUnavailable (arm : Arm)
  | noSolution (arm : Arm) (pose : List ℚ)
  | noSolutionEither (pose : List ℚ)
deriving DecidableEq, Repr

/-- Which of the `IKErr` constructors correspond to a Python
`ValueError`: exactly these are caught by the `except ValueError`
handlers of `ik_either_limb`; a service/transport failure is not. -/
def IKErr.isValueError : IKErr → Bool
  | .invalidPose _ => true
  | .solverUnavailable _ => false
  | .noSolution _ _ => true
  | .noSolutionEither _ => true

/-- The behaviour of the external `SolvePositionIK` service for one arm:
either unavailable (request raises), or a response with `isValid[0]` and
the joint-name/position dictionary `dict(zip(names, positions))`
abstracted as a configuration value. -/
inductive SvcOutcome (Config : Type) where
  | unavailable
  | response (valid : Bool) (cfg : Config)

/-- `Baxter.ik` (baxter.py lines 229-265), parametrised by the arms'
current joint angles (`self._limbs[arm].joint_angles()`) and the
external IK service behaviour.  Returns the outcome paired with a `Bool`
recording whether the external IK service was consulted.
`pose = none` short-circuits to the current joint angles with no service
interaction; a pose list whose length is neither 6 nor 7 is rejected by
`_stamp_pose` before any service call. -/
def ik {Config : Type} (angles : Arm → Config) (svc : Arm → SvcOutcome Config)
    (arm : Arm) (pose : Option (List ℚ)) : Except IKErr Config × Bool :=
  match pose with
  | none => (.ok (angles arm), false)
  | some p =>
    if p.length = 6 ∨ p.length = 7 then
      match svc arm with
      | .unavailable => (.error (.solverUnavailable arm), true)
      | .response true cfg => (.ok cfg, true)
      | .response false _ => (.error (.noSolution arm p), true)
    else (.error (.invalidPose p), false)

/-- `Baxter.ik_either_limb` (baxter.py lines 267-294): try `arm = 'left'`
first; on `ValueError` fall back to `'right'`; if that also raises
`ValueError`, raise the aggregate "either arm" failure.  The second
component lists, in order, the arms for which the external IK service
was consulted. -/
def ik_either_limb {Config : Type} (angles : Arm → Config)
    (svc : Arm → SvcOutcome Config) (pose : Option (List ℚ)) :
    Except IKErr (Arm × Config) × List Arm :=
  match ik angles svc .left pose with
  | (.ok cfg, b) => (.ok (.left, cfg), if b then [.left] else [])
  | (.error e, b) =>
    let c1 : List Arm := if b then [.left] else []
    if e.isValueError then
      match ik angles svc .right pose with
      | (.ok cfg, b2) => (.ok (.right, cfg), c1 ++ if b2 then [.right] else [])
      | (.error e2, b2) =>
        let c2 := c1 ++ if b2 then [.right] else []
        if e2.isValueError then
          (.error (.noSolutionEither (pose.getD [])), c2)
        else (.error e2, c2)
    else (.error e, c1)

/-- `Baxter.measure_distance` (baxter.py lines 469-479), parametrised by
the raw reading of the arm's analog range sensor
(`self._sensors[arm].state()`): readings below 65000 are converted from
millimeters to meters, anything else is "no object" (`None`). -/
def measure_distance (raw : ℚ) : Option ℚ :=
  if raw < 65000 then some (raw / 1000) else none

/-- The enablement-relevant state of the robot and facade:
`rs_enabled` is the external robot enablement (`self._rs.state().enabled`,
written by `self._rs.enable()/disable()`), and `init_state` is the
facade's recorded `self._init_state`, `none` before `set_up` runs
(`self._init_state = None` in `__init__`). -/
structure EnableState where
  rs_enabled : Bool
  init_state : Option Bool
deriving DecidableEq, Repr

/-- The enablement effect of `Baxter.set_up` (baxter.py lines 124-149):
record `self._init_state = self._rs.state().enabled`, then
`self._rs.enable()`.  (The gripper calibration and neutral moves do not
touch the enablement state.) -/
def set_up (s : EnableState) : EnableState :=
  { rs_enabled := true, init_state := some s.rs_enabled }

/-- The enablement effect of `Baxter.clean_up` (baxter.py lines 151-166):
`if not self._init_state: self._rs.disable()`.  Python truthiness makes
both `None` and `False` take the disable branch.  The second component
records whether `disable()` was called. -/
def clean_up (s : EnableState) : EnableState × Bool :=
  if s.init_state = some true then (s, false)
  else ({ s with rs_enabled := false }, true)

/-- A 4-vector dot product, `np.dot` of one matrix row with a
homogeneous coordinate vector. -/
def dot4 (row v : Fin 4 → ℚ) : ℚ :=
  row 0 * v 0 + row 1 * v 1 + row 2 * v 2 + row 3 * v 3

/-- 4x4 matrix product, `np.dot` on homogeneous transforms. -/
def matmul4 (A B : Fin 4 → Fin 4 → ℚ) : Fin 4 → Fin 4 → ℚ :=
  fun i j => dot4 (A i) (fun k => B k j)

/-- `Baxter._get_cam_offset` (baxter.py lines 94-107): the fixed
hand-camera--gripper offset in gripper coordinates, identical for both
limbs. -/
def cam_offset : Fin 3 → ℚ :=
  ![0.03828, 0.012, -0.142345]

/-- The fixed camera-in-gripper homogeneous transform built inside
`Baxter.hom_camera_to_robot` (baxter.py lines 498-501): `np.eye(4)` with
rotation block `[[0,1,0],[-1,0,0],[0,0,1]]` and translation
`self.cam_offset`. -/
def hom_cam_in_grip : Fin 4 → Fin 4 → ℚ :=
  ![![0, 1, 0, cam_offset 0],
    ![-1, 0, 0, cam_offset 1],
    ![0, 0, 1, cam_offset 2],
    ![0, 0, 0, 1]]

/-- `Baxter.hom_camera_to_robot` (baxter.py lines 491-503), parametrised
by the gripper-to-robot homogeneous transform `homGrip`
(`pose_dict_to_hom(self._limbs[arm].endpoint_pose())`, the arm's live
end-effector pose read from the external pose source):
`hom_cam_in_rob = np.dot(hom_grip_in_rob, hom_cam_in_grip)`. -/
def hom_camera_to_robot (homGrip : Fin 4 → Fin 4 → ℚ) : Fin 4 → Fin 4 → ℚ :=
  matmul4 homGrip hom_cam_in_grip

/-- The z coordinate of `Baxter.camera_pose` (baxter.py lines 505-512):
entry `[2]` of `hom_to_list(hom_camera_to_robot(arm))`, i.e. the
translation z of the camera-to-robot transform. -/
def camera_pose_z (homGrip : Fin 4 → Fin 4 → ℚ) : ℚ :=
  hom_camera_to_robot homGrip 2 3

/-- Result of `Baxter.estimate_object_position`: the returned list
`[rob_coord[0], rob_coord[1], self.z_table]` as `position`, whether the
1e-3 m deviation warning was logged as `warned`, and the intermediate
perspective-divided robot-frame z (`rob_coord[2]`) as `raw_z`. -/
structure EstimateResult where
  position : ℚ × ℚ × ℚ
  warned : Bool
  raw_z : ℚ
deriving DecidableEq, Repr

/-- `Baxter.estimate_object_position` (baxter.py lines 514-534),
parametrised by the gripper-to-robot transform `homGrip` of the arm and
by the external camera back-projection
`proj : distance → camera-frame 3-vector`
(`self.cameras[arm].projection_pixel_to_camera(pixel=center, z=distance)`
for the given pixel).  Steps: `distance = camera_pose(arm)[2] - z_table`;
back-project; homogenize with a trailing 1; multiply by
`hom_camera_to_robot`; divide by the last component; compare
`abs(abs(rob_coord[2]) - abs(z_table))` against 1e-3 for the warning;
return `[rob_coord[0], rob_coord[1], z_table]`. -/
def estimate_object_position (homGrip : Fin 4 → Fin 4 → ℚ)
    (proj : ℚ → Fin 3 → ℚ) (z_table : ℚ) : EstimateResult :=
  let distance := camera_pose_z homGrip - z_table
  let cam := proj distance
  let hom_coord : Fin 4 → ℚ := ![cam 0, cam 1, cam 2, 1]
  let H := hom_camera_to_robot homGrip
  let rob : Fin 4 → ℚ := fun i => dot4 (H i) hom_coord
  let rc : Fin 4 → ℚ := fun i => rob i / rob 3
  let delta := |(|rc 2| - |z_table|)|
  { position := (rc 0, rc 1, z_table),
    warned := decide ((1 : ℚ) / 1000 < delta),
    raw_z := rc 2 }

/-!  Theorems settling the claims.  -/

/-- C3: for every arm (gripper-to-robot transform) and pixel
(back-projection behaviour), the z component of the position returned by
`estimate_object_position` equals `z_table` exactly, never the z output
of the camera-to-robot transform chain, regardless of whether the
tolerance warning fired. -/
theorem estimate_position_z_is_z_table (homGrip : Fin 4 → Fin 4 → ℚ)
    (proj : ℚ → Fin 3 → ℚ) (z_table : ℚ) :
    (estimate_object_position homGrip proj z_table).position.2.2 = z_table := rfl

/-- C9: `measure_distance` returns `None` for any raw reading at or above
the out-of-range sentinel 65000, and otherwise converts the millimeter
reading to meters by dividing by 1000. -/
theorem measure_distance_sentinel (raw : ℚ) :
    (65000 ≤ raw → measure_distance raw = none) ∧
    (raw < 65000 → measure_distance raw = some (raw / 1000)) := by
  constructor
  · intro h
    simp [measure_distance, not_lt.mpr h]
  · intro h
    simp [measure_distance, h]

/-- Witness for C9: raw reading 70000 yields `None` and raw reading 500
yields 0.5 meters. -/
theorem measure_distance_sentinel_witness :
    ((65000 : ℚ) ≤ 70000 ∧ measure_distance 70000 = none) ∧
    ((500 : ℚ) < 65000 ∧ measure_distance 500 = some (1 / 2)) := by
  refine ⟨⟨by norm_num, (measure_distance_sentinel 70000).1 (by norm_num)⟩,
    ⟨by norm_num, ?_⟩⟩
  rw [(measure_distance_sentinel 500).2 (by norm_num)]
  norm_num

/-- C2 (counterexample): the claim "the diagnostic warning fires if and
only if |raw_z - z_table| > 1e-3" is false.  With the identity
gripper-to-robot transform, a camera-frame back-projection of
(0, 0, 0.292345) and z_table = -0.15, the transform chain yields
raw_z = 0.15, so |raw_z - z_table| = 0.3 > 1e-3, yet the code compares
abs(abs(rob_coord[2]) - abs(z_table)) = 0 and does not warn. -/
theorem estimate_warning_counterexample :
    (1 : ℚ) / 1000 <
      |(estimate_object_position
          ![![1, 0, 0, 0], ![0, 1, 0, 0], ![0, 0, 1, 0], ![0, 0, 0, 1]]
          (fun _ => ![0, 0, 0.292345]) (-0.15)).raw_z - (-0.15)| ∧
    (estimate_object_position
        ![![1, 0, 0, 0], ![0, 1, 0, 0], ![0, 0, 1, 0], ![0, 0, 0, 1]]
        (fun _ => ![0, 0, 0.292345]) (-0.15)).warned = false := by
  constructor
  · norm_num [estimate_object_position, hom_camera_to_robot, matmul4, dot4,
      hom_cam_in_grip, cam_offset, Matrix.vecHead, Matrix.vecTail,
      abs_of_nonneg, abs_of_nonpos]
  · norm_num [estimate_object_position, hom_camera_to_robot, matmul4, dot4,
      hom_cam_in_grip, cam_offset, Matrix.vecHead, Matrix.vecTail,
      abs_of_nonneg, abs_of_nonpos]

/-- C2 (amended): for every arm (gripper-to-robot transform) and pixel
(back-projection behaviour), `estimate_object_position` emits the
diagnostic warning if and only if
|  |raw_z| - |z_table| | > 1e-3 — the code compares the absolute values
of the raw transformed z and of `z_table`, not their signed difference —
and in either case the call does not fail and still returns the
estimate, whose z component is `z_table`. -/
theorem estimate_warning_iff_abs_deviation (homGrip : Fin 4 → Fin 4 → ℚ)
    (proj : ℚ → Fin 3 → ℚ) (z_table : ℚ) :
    ((estimate_object_position homGrip proj z_table).warned = true ↔
      1 / 1000 <
        |(|(estimate_object_position homGrip proj z_table).raw_z| - |z_table|)|) ∧
    (estimate_object_position homGrip proj z_table).position.2.2 = z_table := by
  constructor
  · simp [estimate_object_position]
  · rfl

/-- C10: for every robot state (joint angles) and every IK service
behaviour, `ik_either_limb` with `pose = None` returns
`('left', current left joint angles)`, consulting the IK service for no
arm at all: the null-pose short circuit in `ik` succeeds for the left
arm, which is tried first. -/
theorem ik_either_limb_null_pose {Config : Type} (angles : Arm → Config)
    (svc : Arm → SvcOutcome Config) :
    ik_either_limb angles svc none = (.ok (.left, angles .left), ([] : List Arm)) := rfl

/-- C4 (counterexample): the claim that `sample_task_space_pose` leaves
the configured task-space envelope unchanged is false.  Starting from an
envelope with `z_max = 0.2`, a call with `clip_z` set leaves a different
envelope behind (its `z_max` is overwritten with 0), and a subsequent
call without `clip_z` still observes `z_max = 0`, not 0.2. -/
theorem sample_task_space_mutates_counterexample :
    (sample_task_space_pose
        ⟨-0.1, 0.6, -0.5, 0.5, -0.2, 0.2, 0, 0, 0, 0, 0, 0⟩ true (fun _ => 0)).2 ≠
      ⟨-0.1, 0.6, -0.5, 0.5, -0.2, 0.2, 0, 0, 0, 0, 0, 0⟩ ∧
    (sample_task_space_pose
        (sample_task_space_pose
            ⟨-0.1, 0.6, -0.5, 0.5, -0.2, 0.2, 0, 0, 0, 0, 0, 0⟩ true
            (fun _ => 0)).2
        false (fun _ => 0)).2.z_max = 0 ∧
    (0.2 : ℚ) ≠ 0 := by
  refine ⟨?_, by simp [sample_task_space_pose], by norm_num⟩
  intro hcon
  have hz := congrArg TaskSpaceLimits.z_max hcon
  simp [sample_task_space_pose] at hz
  norm_num at hz

/-- C4 (amended): `sample_task_space_pose` mutates the shared task-space
envelope in place (the source binds `borders` to the settings dictionary
itself): the x and y intervals and `z_min` are unchanged, `z_max` is
overwritten with 0 exactly when `clip_z` is set, the roll/pitch/yaw
bounds are always pinned to the fixed orientation constants
(pi, 0, pi), the pose is drawn from the mutated envelope, and the
mutation persists: after any call with `clip_z` set, a subsequent call
without `clip_z` still finds `z_max = 0`. -/
theorem sample_task_space_pose_mutation (L : TaskSpaceLimits) (clip_z : Bool)
    (u u2 : Fin 6 → ℚ) :
    (sample_task_space_pose L clip_z u).2.x_min = L.x_min ∧
    (sample_task_space_pose L clip_z u).2.x_max = L.x_max ∧
    (sample_task_space_pose L clip_z u).2.y_min = L.y_min ∧
    (sample_task_space_pose L clip_z u).2.y_max = L.y_max ∧
    (sample_task_space_pose L clip_z u).2.z_min = L.z_min ∧
    (sample_task_space_pose L clip_z u).2.z_max =
      (if clip_z then 0 else L.z_max) ∧
    (sample_task_space_pose L clip_z u).2.roll_min = np_pi ∧
    (sample_task_space_pose L clip_z u).2.roll_max = np_pi ∧
    (sample_task_space_pose L clip_z u).2.pitch_min = 0 ∧
    (sample_task_space_pose L clip_z u).2.pitch_max = 0 ∧
    (sample_task_space_pose L clip_z u).2.yaw_min = np_pi ∧
    (sample_task_space_pose L clip_z u).2.yaw_max = np_pi ∧
    (sample_task_space_pose L clip_z u).1 =
      sample_pose (sample_task_space_pose L clip_z u).2 u ∧
    (sample_task_space_pose (sample_task_space_pose L true u).2 false u2).2.z_max
      = 0 := by
  cases clip_z <;> simp [sample_task_space_pose]

/-- If `ik` on a non-null pose reports "no valid configuration", the IK
service was consulted for that arm: the outcome pair is
`(noSolution, service consulted)`. -/
lemma ik_some_noSolution_pair {Config : Type} (angles : Arm → Config)
    (svc : Arm → SvcOutcome Config) (a : Arm) (p : List ℚ)
    (h : (ik angles svc a (some p)).1 = .error (.noSolution a p)) :
    ik angles svc a (some p) = (.error (.noSolution a p), true) := by
  unfold ik at h ⊢
  by_cases hl : p.length = 6 ∨ p.length = 7
  · simp only [if_pos hl] at h ⊢
    cases hs : svc a with
    | unavailable => rw [hs] at h; simp at h
    | response valid cfg => cases valid <;> simp_all
  · simp only [if_neg hl] at h
    simp at h

/-- If `ik` on a non-null pose returns a configuration, the IK service
was consulted for that arm: the outcome pair is `(ok, service
consulted)`. -/
lemma ik_some_ok_pair {Config : Type} (angles : Arm → Config)
    (svc : Arm → SvcOutcome Config) (a : Arm) (p : List ℚ) (cfg : Config)
    (h : (ik angles svc a (some p)).1 = .ok cfg) :
    ik angles svc a (some p) = (.ok cfg, true) := by
  unfold ik at h ⊢
  by_cases hl : p.length = 6 ∨ p.length = 7
  · simp only [if_pos hl] at h ⊢
    cases hs : svc a with
    | unavailable => rw [hs] at h; simp at h
    | response valid cfg2 => cases valid <;> simp_all
  · simp only [if_neg hl] at h
    simp at h

/-- C5: for every non-null pose, `ik_either_limb` attempts the left arm
strictly first (the consulted-arm trace is `[left, right]`); if solving
for left raises the no-solution `ValueError` and solving for right
succeeds, it returns `('right', config)`; if both arms fail with the
no-solution `ValueError`, it raises the aggregate no-solution error
covering both arms. -/
theorem ik_either_limb_left_first (Config : Type) (angles : Arm → Config)
    (svc : Arm → SvcOutcome Config) (p : List ℚ) (cfg : Config) :
    ((ik angles svc .left (some p)).1 = .error (.noSolution .left p) →
      (ik angles svc .right (some p)).1 = .ok cfg →
      ik_either_limb angles svc (some p) = (.ok (.right, cfg), [.left, .right])) ∧
    ((ik angles svc .left (some p)).1 = .error (.noSolution .left p) →
      (ik angles svc .right (some p)).1 = .error (.noSolution .right p) →
      (ik_either_limb angles svc (some p)).1 = .error (.noSolutionEither p)) := by
  constructor
  · intro h1 h2
    have e1 := ik_some_noSolution_pair angles svc .left p h1
    have e2 := ik_some_ok_pair angles svc .right p cfg h2
    simp [ik_either_limb, e1, e2, IKErr.isValueError]
  · intro h1 h2
    have e1 := ik_some_noSolution_pair angles svc .left p h1
    have e2 := ik_some_noSolution_pair angles svc .right p h2
    simp [ik_either_limb, e1, e2, IKErr.isValueError]

/-- Witness for C5: a six-element pose for which the service rejects the
left arm and accepts the right arm with configuration 7; the dispatcher
returns `('right', 7)` with consulted-arm trace `[left, right]`. -/
theorem ik_either_limb_left_first_witness :
    (ik (fun _ => (0 : ℚ)) (fun a => match a with
        | Arm.left => SvcOutcome.response false 0
        | Arm.right => SvcOutcome.response true 7)
      Arm.left (some [0, 0, 0, 0, 0, 0])).1
      = .error (.noSolution Arm.left [0, 0, 0, 0, 0, 0]) ∧
    (ik (fun _ => (0 : ℚ)) (fun a => match a with
        | Arm.left => SvcOutcome.response false 0
        | Arm.right => SvcOutcome.response true 7)
      Arm.right (some [0, 0, 0, 0, 0, 0])).1 = .ok 7 ∧
    ik_either_limb (fun _ => (0 : ℚ)) (fun a => match a with
        | Arm.left => SvcOutcome.response false 0
        | Arm.right => SvcOutcome.response true 7)
      (some [0, 0, 0, 0, 0, 0]) = (.ok (Arm.right, 7), [Arm.left, Arm.right]) := by
  refine ⟨by simp [ik], by simp [ik], ?_⟩
  exact (ik_either_limb_left_first ℚ _ _ _ 7).1 (by simp [ik]) (by simp [ik])

/-- C7: the `set_up` then `clean_up` round trip preserves the robot's
external enablement state: if the robot was enabled before `set_up`
recorded the initial state, `clean_up` leaves it enabled and never calls
`disable()`; if it was disabled before, `clean_up` disables it again. -/
theorem set_up_clean_up_enablement (s : EnableState) :
    ((clean_up (set_up s)).1).rs_enabled = s.rs_enabled ∧
    (clean_up (set_up s)).2 = !s.rs_enabled := by
  cases h : s.rs_enabled <;> simp [set_up, clean_up, h]

/-- C8: for every object size covered by neither installed gripper
range, `select_gripper_for_object` raises the no-suitable-gripper error
whose payload carries both installed ranges and the requested size. -/
theorem select_no_candidate_raises (size : ℚ) (grL grR : ℚ × ℚ)
    (hL : ¬(grL.1 ≤ size ∧ size < grL.2)) (hR : ¬(grR.1 ≤ size ∧ size < grR.2)) :
    select_gripper_for_object size grL grR =
      .error { size := size, left_range := grL, right_range := grR } := by
  simp [select_gripper_for_object, select_step, hL, hR]

/-- Witness for C8: size 0.005 lies below both installed ranges
(narrow slot 4 and wide slot 1 of the range table) and raises the error
carrying the size and both ranges. -/
theorem select_no_candidate_raises_witness :
    ¬((0.052 : ℚ) ≤ 0.005 ∧ (0.005 : ℚ) < 0.075) ∧
    ¬((0.071 : ℚ) ≤ 0.005 ∧ (0.005 : ℚ) < 0.094) ∧
    select_gripper_for_object 0.005 (0.052, 0.075) (0.071, 0.094) =
      .error { size := 0.005, left_range := (0.052, 0.075),
               right_range := (0.071, 0.094) } := by
  refine ⟨by norm_num, by norm_num, ?_⟩
  exact select_no_candidate_raises 0.005 (0.052, 0.075) (0.071, 0.094)
    (by norm_num) (by norm_num)

/-- C1 (counterexample): the claim fails for a size equal to the lower
bound of the only qualifying range.  Size 0.052 satisfies
min <= size < max for the left range (0.052, 0.075) (narrow slot 4) and
lies outside the right range (0.071, 0.094) (wide slot 1), yet
`select_gripper_for_object` does not return left: the nearer-boundary
distance is 0, the `min_dist > 0.0` guard skips the candidate, and the
no-suitable-gripper error is raised. -/
theorem select_lower_bound_counterexample :
    ((0.052 : ℚ) ≤ 0.052 ∧ (0.052 : ℚ) < 0.075) ∧
    ¬((0.071 : ℚ) ≤ 0.052 ∧ (0.052 : ℚ) < 0.094) ∧
    select_gripper_for_object 0.052 (0.052, 0.075) (0.071, 0.094) ≠
      Except.ok Arm.left ∧
    select_gripper_for_object 0.052 (0.052, 0.075) (0.071, 0.094) =
      .error { size := 0.052, left_range := (0.052, 0.075),
               right_range := (0.071, 0.094) } := by
  have hEq : select_gripper_for_object 0.052 (0.052, 0.075) (0.071, 0.094) =
      .error { size := 0.052, left_range := (0.052, 0.075),
               right_range := (0.071, 0.094) } := by
    norm_num [select_gripper_for_object, select_step, min_def,
      abs_of_nonneg, abs_of_nonpos]
  refine ⟨by norm_num, by norm_num, ?_, hEq⟩
  rw [hEq]
  intro hcon
  exact Except.noConfusion hcon

/-- C1 (amended): for every object size strictly inside (min < size <
max) exactly one installed gripper's range and outside the other arm's
range, `select_gripper_for_object` returns that arm; but when the size
equals the qualifying range's inclusive lower bound exactly, the
`min_dist > 0.0` guard drops the candidate and the no-suitable-gripper
error is raised instead. -/
theorem select_unique_candidate (size : ℚ) (grL grR : ℚ × ℚ) :
    (grL.1 < size → size < grL.2 → ¬(grR.1 ≤ size ∧ size < grR.2) →
      select_gripper_for_object size grL grR = .ok .left) ∧
    (grR.1 < size → size < grR.2 → ¬(grL.1 ≤ size ∧ size < grL.2) →
      select_gripper_for_object size grL grR = .ok .right) ∧
    (size = grL.1 → size < grL.2 → ¬(grR.1 ≤ size ∧ size < grR.2) →
      select_gripper_for_object size grL grR =
        .error { size := size, left_range := grL, right_range := grR }) ∧
    (size = grR.1 → size < grR.2 → ¬(grL.1 ≤ size ∧ size < grL.2) →
      select_gripper_for_object size grL grR =
        .error { size := size, left_range := grL, right_range := grR }) := by
  refine ⟨?_, ?_, ?_, ?_⟩
  · intro h1 h2 hR
    have ha : |grL.1 - size| = size - grL.1 := by
      rw [abs_of_neg (by linarith), neg_sub]
    have hb : |grL.2 - size| = grL.2 - size := abs_of_pos (by linarith)
    have hpos : 0 < min |grL.1 - size| |grL.2 - size| := by
      rw [ha, hb]
      exact lt_min (by linarith) (by linarith)
    simp [select_gripper_for_object, select_step, hR, hpos, le_of_lt h1, h2]
  · intro h1 h2 hL
    have ha : |grR.1 - size| = size - grR.1 := by
      rw [abs_of_neg (by linarith), neg_sub]
    have hb : |grR.2 - size| = grR.2 - size := abs_of_pos (by linarith)
    have hpos : 0 < min |grR.1 - size| |grR.2 - size| := by
      rw [ha, hb]
      exact lt_min (by linarith) (by linarith)
    simp [select_gripper_for_object, select_step, hL, hpos, le_of_lt h1, h2]
  · intro h1 h2 hR
    have ha : |grL.1 - size| = 0 := by
      rw [h1]
      simp
    have hzero : min |grL.1 - size| |grL.2 - size| = 0 := by
      rw [ha]
      exact min_eq_left (abs_nonneg _)
    simp [select_gripper_for_object, select_step, hR, hzero, h1.symm.le, h2]
  · intro h1 h2 hL
    have ha : |grR.1 - size| = 0 := by
      rw [h1]
      simp
    have hzero : min |grR.1 - size| |grR.2 - size| = 0 := by
      rw [ha]
      exact min_eq_left (abs_nonneg _)
    simp [select_gripper_for_object, select_step, hL, hzero, h1.symm.le, h2]

/-- Witness for C1 (amended): size 0.06 lies strictly inside the left
range (0.052, 0.075) and outside the right range (0.071, 0.094), and the
left arm is selected; size 0.052 (the inclusive lower bound) raises the
error instead. -/
theorem select_unique_candidate_witness :
    select_gripper_for_object 0.06 (0.052, 0.075) (0.071, 0.094) = .ok .left ∧
    select_gripper_for_object 0.052 (0.052, 0.075) (0.071, 0.094) =
      .error { size := 0.052, left_range := (0.052, 0.075),
               right_range := (0.071, 0.094) } := by
  constructor
  · exact (select_unique_candidate 0.06 (0.052, 0.075) (0.071, 0.094)).1
      (by norm_num) (by norm_num) (by norm_num)
  · exact (select_unique_candidate 0.052 (0.052, 0.075) (0.071, 0.094)).2.2.1
      (by norm_num) (by norm_num) (by norm_num)

/-- C6: for every object size for which both arms are candidates and the
two arms' nearer-boundary distances are equal, `select_gripper_for_object`
returns the arm whose range lower bound is largest (the wider
configuration).  The installed lower bounds are physical grasp widths
(nonnegative) and, being distinct table entries, differ. -/
theorem select_tie_prefers_larger_lower_bound (size : ℚ) (grL grR : ℚ × ℚ)
    (h0L : 0 ≤ grL.1)
    (hL1 : grL.1 ≤ size) (hL2 : size < grL.2)
    (hR1 : grR.1 ≤ size) (hR2 : size < grR.2)
    (hne : grL.1 ≠ grR.1)
    (htie : min |grL.1 - size| |grL.2 - size| = min |grR.1 - size| |grR.2 - size|) :
    select_gripper_for_object size grL grR =
      .ok (if grL.1 < grR.1 then Arm.right else Arm.left) := by
  have haL1 : |grL.1 - size| = size - grL.1 := by
    rw [abs_of_nonpos (by linarith), neg_sub]
  have haL2 : |grL.2 - size| = grL.2 - size := abs_of_pos (by linarith)
  have haR1 : |grR.1 - size| = size - grR.1 := by
    rw [abs_of_nonpos (by linarith), neg_sub]
  have haR2 : |grR.2 - size| = grR.2 - size := abs_of_pos (by linarith)
  rw [select_gripper_for_object]
  simp only [List.foldl, select_step]
  rw [haL1, haL2, haR1, haR2] at htie ⊢
  have hdL : 0 < (size - grL.1) ⊓ (grL.2 - size) := by
    rcases lt_or_eq_of_le hL1 with hlt | heq
    · exact lt_min (by linarith) (by linarith)
    · exfalso
      have hz : size - grL.1 = 0 := by linarith
      have h0 : (size - grL.1) ⊓ (grL.2 - size) = 0 := by
        rw [hz]
        exact min_eq_left (by linarith)
      rcases lt_or_eq_of_le hR1 with hrlt | hreq
      · have hp : 0 < (size - grR.1) ⊓ (grR.2 - size) :=
          lt_min (by linarith) (by linarith)
        rw [← htie, h0] at hp
        exact lt_irrefl 0 hp
      · exact hne (heq.trans hreq.symm)
  have hdR : 0 < (size - grR.1) ⊓ (grR.2 - size) := htie ▸ hdL
  have hmwL : (if (0 : ℚ) < grL.1 then grL.1 else 0) = grL.1 := by
    rcases lt_or_eq_of_le h0L with hlt | heq
    · rw [if_pos hlt]
    · rw [if_neg (by rw [← heq]; exact lt_irrefl 0), ← heq]
  by_cases hc : grL.1 < grR.1
  · simp [hL1, hL2, hR1, hR2, hdL, hdR, htie.symm, hmwL, hc]
  · simp [hL1, hL2, hR1, hR2, hdL, hdR, htie.symm, hmwL, hc]

/-- Witness for C6: size 0.035 lies in both the narrow slot 2 range
(0.014, 0.037) and the narrow slot 3 range (0.033, 0.056); both
nearer-boundary distances are 0.002, and the arm with the larger lower
bound (right, 0.033) is selected. -/
theorem select_tie_prefers_larger_lower_bound_witness :
    select_gripper_for_object 0.035 (0.014, 0.037) (0.033, 0.056) =
      .ok Arm.right := by
  have h := select_tie_prefers_larger_lower_bound 0.035 (0.014, 0.037)
    (0.033, 0.056) (by norm_num) (by norm_num) (by norm_num) (by norm_num)
    (by norm_num) (by norm_num)
    (by norm_num [min_def, abs_of_nonneg, abs_of_nonpos])
  rw [if_pos (by norm_num)] at h
  exact h

end Baxter

